import Mathlib

/-!
Shallow embedding of the reaction-information extractor and report writer of
this repository (`get_reaction_info.py` and `test_get_reaction_info.py`).
Python floats are modelled as exact rationals.  The external Cantera objects
(`ct.Solution`, reaction objects, rate objects) are modelled as explicit
structures carrying exactly the attributes the two scripts read.
-/

namespace Spec2Proof

/-- A modified-Arrhenius rate object as exposed by the external kinetics
library: pre-exponential factor, temperature exponent and activation energy
(the raw energy, before the scripts divide by the gas constant). -/
structure RateTriple where
  pre_exponential_factor : ℚ
  temperature_exponent : ℚ
  activation_energy : ℚ
  deriving DecidableEq

/-- The slice of an external reaction object that the two scripts read: the
numeric type code, reversibility, the rendered equation string, the forward
rate object (`rate`), the fall-off pair (`high_rate` / `low_rate`), the
third-body efficiency mapping (a Python dict whose `keys()` and `values()`
iterations share one insertion order, modelled as an association list), and
the fall-off function data (`falloff.falloff_type`, `falloff.parameters`). -/
structure Reaction where
  reaction_type : Int
  reversible : Bool
  equation : String
  rate : RateTriple
  high_rate : RateTriple
  low_rate : RateTriple
  efficiencies : List (String × ℚ)
  falloff_type : Int
  falloff_parameters : List ℚ
  deriving DecidableEq

/-- The slice of `ct.Solution` that the scripts read: the species list
(`species_index` resolves a name to its position), the reaction list, and
the reactant stoichiometric-coefficient matrix `reactant_stoich_coeffs()`
stored one column per reaction (each column has one entry per species, the
column `Sf[:, i]` the Reporter reads). -/
structure Solution where
  species_names : List String
  reactions : List Reaction
  reactant_stoich_coeffs : List (List ℚ)
  deriving DecidableEq

/-- `g.species_index(name)`: the position of `name` in the species list
(Cantera raises for an unknown name; the scripts only look up names that the
model itself produced, where `indexOf` agrees with Cantera). -/
def Solution.species_index (g : Solution) (name : String) : Nat :=
  g.species_names.indexOf name

/-- The universal gas constant `ruc = 8314.4621` (J/(kmol*K)) hard-coded in
`get_reaction_info`. -/
def ruc : ℚ := 8314.4621

/-- The `ReactionInfo` class: all flags start `False`, the rate parameters
start `0.0`, `ITHB` starts at the `-1` sentinel, and the three lists start
empty, exactly as in `ReactionInfo.__init__`. -/
structure ReactionInfo where
  isReversible : Bool := false
  isThirdbody : Bool := false
  isFalloff : Bool := false
  isChemical : Bool := false
  isPLOG : Bool := false
  isSimple : Bool := false
  isLindemann : Bool := false
  isTroe : Bool := false
  isTroe6 : Bool := false
  isTroe7 : Bool := false
  RA : ℚ := 0
  RB : ℚ := 0
  RE : ℚ := 0
  ITHB : Int := -1
  AIK : List ℚ := []
  NKTB : List Nat := []
  Fall : List ℚ := []
  deriving DecidableEq

/-- The value returned by `get_reaction_info`: a populated `ReactionInfo`
record on the supported type codes, or the bare integer `0` (the literal
`return 0` of the unsupported-type branch, after printing a diagnostic). -/
inductive ExtractResult where
  | record (reac : ReactionInfo) : ExtractResult
  | sentinel (v : Int) : ExtractResult
  deriving DecidableEq

/-- The body of `get_reaction_info` after the `r1 = g.reaction(i)` lookup.
The per-branch appends into `NKTB` / `AIK` over `range(n_third)` are written
as the equivalent maps over the (ordered) efficiency list.  `none` models a
raised exception: a Troe `parameters` list shorter than the four entries the
code indexes (Cantera always supplies four, padding T2 with `0.0` for the
6-parameter form). -/
def extractReaction (g : Solution) (r1 : Reaction) : Option ExtractResult :=
  let R_type := r1.reaction_type
  let reac0 : ReactionInfo := {}
  let reac1 := if r1.reversible then { reac0 with isReversible := true } else reac0
  if R_type = 1 then
    let rfhigh := r1.rate
    some (.record { reac1 with
      isSimple := true
      RA := rfhigh.pre_exponential_factor
      RB := rfhigh.temperature_exponent
      RE := rfhigh.activation_energy / ruc })
  else if R_type = 2 then
    let rfhigh := r1.rate
    let third_body_species := r1.efficiencies.map Prod.fst
    let third_body_efficients := r1.efficiencies.map Prod.snd
    let n_third := third_body_species.length
    some (.record { reac1 with
      isThirdbody := true
      RA := rfhigh.pre_exponential_factor
      RB := rfhigh.temperature_exponent
      RE := rfhigh.activation_energy / ruc
      ITHB := (n_third : Int)
      NKTB := third_body_species.map g.species_index
      AIK := third_body_efficients })
  else if R_type = 4 then
    let rfhigh := r1.high_rate
    let rflow := r1.low_rate
    let third_body_species := r1.efficiencies.map Prod.fst
    let third_body_efficients := r1.efficiencies.map Prod.snd
    let n_third := third_body_species.length
    let reac2 : ReactionInfo := { reac1 with
      isFalloff := true
      RA := rfhigh.pre_exponential_factor
      RB := rfhigh.temperature_exponent
      RE := rfhigh.activation_energy / ruc
      Fall := [rflow.pre_exponential_factor, rflow.temperature_exponent,
               rflow.activation_energy / ruc]
      ITHB := (n_third : Int)
      NKTB := third_body_species.map g.species_index
      AIK := third_body_efficients }
    let reac3 := if r1.falloff_type = 100 then { reac2 with isLindemann := true } else reac2
    if r1.falloff_type = 110 then
      match r1.falloff_parameters with
      | alpha :: t3 :: t1 :: t2 :: _ =>
        let reac4 := { reac3 with isTroe := true }
        let reac5 :=
          if t2 = 0 then { reac4 with isTroe6 := true } else { reac4 with isTroe7 := true }
        some (.record { reac5 with Fall := reac5.Fall ++ [alpha, t3, t1, t2] })
      | _ => none
    else
      some (.record reac3)
  else
    some (.sentinel 0)

/-- `get_reaction_info(g, i)`: look the reaction up and extract its record.
`none` models a raised exception (index out of range at `g.reaction(i)`, or
a short Troe parameter list); `some (sentinel 0)` is the printed-diagnostic
`return 0` of the unsupported-type branch. -/
def get_reaction_info (g : Solution) (i : Nat) : Option ExtractResult :=
  match g.reactions[i]? with
  | none => none
  | some r1 => extractReaction g r1

/-- The reaction order computed by the Reporter for reaction `i`: the sum of
the nonzero entries of the reactant stoichiometric-coefficient column
(`coef_f = Sf[:, i]`; `np.nonzero` then indexing then `np.sum` is the sum of
the nonzero entries). -/
def reac_order (g : Solution) (i : Nat) : ℚ :=
  let coef_f := g.reactant_stoich_coeffs.getD i []
  ((coef_f.filter (fun c => c != 0)).sum)

/-- The unit-conversion factor `Convert_A = 1E3 ** (reac_order - 1)`.  The
source computes a float power with a float exponent; the reactant
stoichiometric coefficients of the kinetics model are whole numbers for every
mechanism this tool targets, so the exponent is an integer and the float
power coincides with the integer power taken here via `.num` (exact whenever
`(reac_order - 1).den = 1`, the hypothesis the order/conversion theorem
carries). -/
def Convert_A (g : Solution) (i : Nat) : ℚ :=
  (1000 : ℚ) ^ (reac_order g i - 1).num

/-- One write the Reporter performs into the output file, with the numeric
payloads the formatted line carries.  Fixed comment lines (`'C ...'`) are
`note` events carrying their text; `header` is the per-reaction
`'C R%g: %s Reaction type: %g'` line; `rf` is the
`'      RF = A*T**B*EXP(nE/T)'` line (the Reporter prints the negated
activation energy); `lowPressureABE` is the
`'      Low pressure limit ABE: ...'` line; `blockEnd` is the closing
`'C'` line. -/
inductive ReportLine where
  | header (num : Nat) (equation : String) (rtype : Int) : ReportLine
  | note (text : String) : ReportLine
  | rf (A B nE : ℚ) : ReportLine
  | thirdBodyCount (n : Int) : ReportLine
  | speciesEff (index : Nat) (efficiency : ℚ) : ReportLine
  | lowPressureABE (A B E : ℚ) : ReportLine
  | troeShape3 (alpha T3 T1 : ℚ) : ReportLine
  | troeShape4 (alpha T3 T1 T2 : ℚ) : ReportLine
  | plogPressure (P : ℚ) : ReportLine
  | blockEnd : ReportLine
  deriving DecidableEq

/-- What one iteration of the Reporter loop does: `ok` finishes the block
normally with the listed writes; `exit` is the `sys.exit()` path (the listed
writes happened, then the diagnostic print and the hard stop); `error` is an
uncaught exception (the listed writes happened, then an attribute access or
an indexing failed). -/
inductive StepResult where
  | ok (ls : List ReportLine) : StepResult
  | exit (ls : List ReportLine) : StepResult
  | error (ls : List ReportLine) : StepResult
  deriving DecidableEq

/-- The writes of a `StepResult`, whichever way the step ended. -/
def StepResult.writes : StepResult → List ReportLine
  | .ok ls => ls
  | .exit ls => ls
  | .error ls => ls

/-- The body of one Reporter loop iteration after `r1 = g.reaction(i)` and
the `get_reaction_info` call: compute `Convert_A`, write the header, then
dispatch on the raw type code.  Attribute accesses on the integer sentinel
(`reac.RA` when `reac` is `0`) raise `AttributeError` and are the `error`
outcomes; the type-5 branch reads `reac.NPLG`, `reac.P_plog`, `reac.A_plog`,
`reac.B_plog`, `reac.E_plog`, none of which `ReactionInfo` declares, so it
raises after its two writes whatever `res` is; the final `else` prints and
calls `sys.exit()`. -/
def reportBlock (g : Solution) (i : Nat) (r1 : Reaction) (res : ExtractResult) : StepResult :=
  let convA := Convert_A g i
  let R_type := r1.reaction_type
  let header := ReportLine.header (i + 1) r1.equation R_type
  if R_type = 1 then
    match res with
    | .record reac =>
      let A_high := reac.RA * convA
      .ok [header, .note "C forward temperature dependent reaction rate",
           .rf A_high reac.RB (-reac.RE), .blockEnd]
    | .sentinel _ => .error [header]
  else if R_type = 2 then
    match res with
    | .record reac =>
      let A_high := reac.RA * 1000 * convA
      .ok ([header, .note "C have third-body",
            .note "C forward temperature dependent reaction rate",
            .rf A_high reac.RB (-reac.RE),
            .note "C Third body information",
            .thirdBodyCount reac.ITHB] ++
           (List.range reac.ITHB.toNat).map
             (fun n => .speciesEff (reac.NKTB.getD n 0) (reac.AIK.getD n 0)) ++
           [.blockEnd])
    | .sentinel _ => .error [header, .note "C have third-body"]
  else if R_type = 4 then
    match res with
    | .record reac =>
      let A_high := reac.RA * convA
      let A_low := reac.Fall.getD 0 0 * 1000 * convA
      let B_low := reac.Fall.getD 1 0
      let E_low := reac.Fall.getD 2 0
      .ok ([header, .note "C fall off",
            .note "C forward temperature dependent reaction rate",
            .rf A_high reac.RB (-reac.RE),
            .note "C Third body information",
            .thirdBodyCount reac.ITHB] ++
           (List.range reac.ITHB.toNat).map
             (fun n => .speciesEff (reac.NKTB.getD n 0) (reac.AIK.getD n 0)) ++
           (if reac.isLindemann then
              [.note "C Lindemann 3-parameters", .lowPressureABE A_low B_low E_low]
            else []) ++
           (if reac.isTroe6 then
              [.note "C Troe 6-parameters", .lowPressureABE A_low B_low E_low,
               .troeShape3 (reac.Fall.getD 3 0) (reac.Fall.getD 4 0) (reac.Fall.getD 5 0)]
            else []) ++
           (if reac.isTroe7 then
              [.note "C Troe 7-parameters", .lowPressureABE A_low B_low E_low,
               .troeShape4 (reac.Fall.getD 3 0) (reac.Fall.getD 4 0) (reac.Fall.getD 5 0)
                 (reac.Fall.getD 6 0)]
            else []) ++
           [.blockEnd])
    | .sentinel _ => .error [header, .note "C fall off"]
  else if R_type = 5 then
    .error [header, .note "C PLOG"]
  else
    .exit [header]

/-- One iteration of the Reporter loop for index `i`: look the reaction up,
extract its record, run the block.  `error []` covers the exceptions raised
before the header write (a failed lookup or a failed extraction). -/
def reportStep (g : Solution) (i : Nat) : StepResult :=
  match g.reactions[i]?, get_reaction_info g i with
  | some r1, some res => reportBlock g i r1 res
  | _, _ => .error []

/-- How a Reporter run ends: the accumulated writes plus whether the program
executed `file.close()`.  The script opens the output once with mode `'w'`
before the loop; `file.close()` stands on the line after the loop, so it
runs on `completed` only — `sys.exit()` (`exited`) and an uncaught exception
(`crashed`) leave the program without reaching it. -/
inductive Outcome where
  | completed (ls : List ReportLine) (fileClosed : Bool) : Outcome
  | exited (ls : List ReportLine) (fileClosed : Bool) : Outcome
  | crashed (ls : List ReportLine) (fileClosed : Bool) : Outcome
  deriving DecidableEq

/-- Whether the program executed its `file.close()` call. -/
def Outcome.fileClosed : Outcome → Bool
  | .completed _ b => b
  | .exited _ b => b
  | .crashed _ b => b

/-- Whether the pass over the reactions ran to completion. -/
def Outcome.isCompleted : Outcome → Bool
  | .completed _ _ => true
  | _ => false

/-- The writes accumulated in the output file by the end of the run. -/
def Outcome.outWrites : Outcome → List ReportLine
  | .completed ls _ => ls
  | .exited ls _ => ls
  | .crashed ls _ => ls

/-- The Reporter loop over the listed reaction indices: each `ok` step
appends its writes and continues; `exit` ends the run at once through
`sys.exit()` with `file.close()` never executed; `error` ends it at once
through an uncaught exception, likewise without the close. -/
def runReactions (g : Solution) : List Nat → List ReportLine → Outcome
  | [], acc => .completed acc true
  | i :: rest, acc =>
    match reportStep g i with
    | .ok ls => runReactions g rest (acc ++ ls)
    | .exit ls => .exited (acc ++ ls) false
    | .error ls => .crashed (acc ++ ls) false

/-- The whole Reporter script: open the output fresh (the accumulator starts
empty), iterate `for i in range(0, II)`, close on normal completion. -/
def writeReport (g : Solution) : Outcome :=
  runReactions g (List.range g.reactions.length) []

/-- The A values of the forward-rate (`RF =`) lines among some writes. -/
def rfAs (ls : List ReportLine) : List ℚ :=
  ls.filterMap (fun l => match l with | .rf a _ _ => some a | _ => none)

/-- The A values of the low-pressure-limit lines among some writes. -/
def lowAs (ls : List ReportLine) : List ℚ :=
  ls.filterMap (fun l => match l with | .lowPressureABE a _ _ => some a | _ => none)

/-- A zero rate object, for fields a given reaction type never reads. -/
def rt0 : RateTriple := ⟨0, 0, 0⟩

/-- A type-1 (simple) reversible reaction; its raw activation energy is
exactly `2 * ruc`. -/
def rxSimple : Reaction :=
  { reaction_type := 1, reversible := true, equation := "H + O2 = OH + O",
    rate := ⟨13, 0.5, 16628.9242⟩, high_rate := rt0, low_rate := rt0,
    efficiencies := [], falloff_type := 0, falloff_parameters := [] }

/-- A type-2 (third-body) reaction with two enhanced species. -/
def rxThird : Reaction :=
  { reaction_type := 2, reversible := false, equation := "H + H + M = H2 + M",
    rate := ⟨5, 1, 0⟩, high_rate := rt0, low_rate := rt0,
    efficiencies := [("AR", 0.7), ("H2O", 12)], falloff_type := 0,
    falloff_parameters := [] }

/-- A type-4 fall-off reaction with a Lindemann blending function. -/
def rxFallLind : Reaction :=
  { reaction_type := 4, reversible := false, equation := "H + O2 (+M) = HO2 (+M)",
    rate := rt0, high_rate := ⟨7, 0, 0⟩, low_rate := ⟨9, -1, 0⟩,
    efficiencies := [("H2", 2)], falloff_type := 100, falloff_parameters := [] }

/-- A type-4 fall-off reaction with a 6-parameter Troe blending function:
the fourth shape parameter T2 is zero. -/
def rxTroe6 : Reaction :=
  { reaction_type := 4, reversible := false, equation := "2 OH (+M) = H2O2 (+M)",
    rate := rt0, high_rate := ⟨3, 0, 0⟩, low_rate := ⟨4, 0, 0⟩,
    efficiencies := [], falloff_type := 110, falloff_parameters := [0.5, 30, 90000, 0] }

/-- A type-5 (PLOG) reaction. -/
def rxPlog : Reaction :=
  { reaction_type := 5, reversible := false, equation := "H + O2 = HO2",
    rate := rt0, high_rate := rt0, low_rate := rt0,
    efficiencies := [], falloff_type := 0, falloff_parameters := [] }

/-- A reaction with the unrecognized type code 99. -/
def rxUnknown : Reaction :=
  { reaction_type := 99, reversible := false, equation := "R99",
    rate := rt0, high_rate := rt0, low_rate := rt0,
    efficiencies := [], falloff_type := 0, falloff_parameters := [] }

/-- A concrete model holding one reaction of each shape of interest. -/
def gW : Solution :=
  { species_names := ["H2", "AR", "H2O"],
    reactions := [rxSimple, rxThird, rxFallLind, rxTroe6, rxPlog, rxUnknown],
    reactant_stoich_coeffs := [[1, 0, 0], [2, 0, 0], [1, 1, 0], [1, 0, 0],
                               [1, 0, 0], [1, 0, 0]] }

/-- A model whose only reaction carries the unrecognized type code 99. -/
def gBad : Solution :=
  { species_names := [], reactions := [rxUnknown], reactant_stoich_coeffs := [[1]] }

/-- The record the extractor builds for `rxSimple` (the `RE` value is the
division the extractor performs; it equals 2). -/
def reacS : ReactionInfo :=
  { isReversible := true, isSimple := true, RA := 13, RB := 0.5,
    RE := 16628.9242 / ruc }

/-- The record the extractor builds for `rxThird` (species "AR" and "H2O"
resolve to indices 1 and 2 of `gW`). -/
def reacT : ReactionInfo :=
  { isThirdbody := true, RA := 5, RB := 1, RE := 0 / ruc, ITHB := 2,
    NKTB := [1, 2], AIK := [0.7, 12] }

/-- The record the extractor builds for `rxFallLind`. -/
def reacL : ReactionInfo :=
  { isFalloff := true, isLindemann := true, RA := 7, RB := 0, RE := 0 / ruc,
    ITHB := 1, NKTB := [0], AIK := [2], Fall := [9, -1, 0 / ruc] }

/-- The record the extractor builds for `rxTroe6`: although T2 is zero (the
6-parameter Troe form), the code appends all four shape parameters, so
`Fall` ends up with seven entries, its last one the zero T2. -/
def reacT6 : ReactionInfo :=
  { isFalloff := true, isTroe := true, isTroe6 := true, RA := 3, RB := 0,
    RE := 0 / ruc, ITHB := 0, NKTB := [], AIK := [],
    Fall := [4, 0, 0 / ruc, 0.5, 30, 90000, 0] }

theorem get_reaction_info_eq_extract (g : Solution) (i : Nat) (r1 : Reaction)
    (h : g.reactions[i]? = some r1) : get_reaction_info g i = extractReaction g r1 := by
  simp [get_reaction_info, h]

theorem extractReaction_unknown (g : Solution) (r1 : Reaction)
    (h1 : r1.reaction_type ≠ 1) (h2 : r1.reaction_type ≠ 2)
    (h4 : r1.reaction_type ≠ 4) :
    extractReaction g r1 = some (.sentinel 0) := by
  simp [extractReaction, h1, h2, h4]

theorem extractReaction_type1 (g : Solution) (r1 : Reaction)
    (h : r1.reaction_type = 1) :
    extractReaction g r1 = some (.record
      { isReversible := r1.reversible
        isSimple := true
        RA := r1.rate.pre_exponential_factor
        RB := r1.rate.temperature_exponent
        RE := r1.rate.activation_energy / ruc }) := by
  cases hr : r1.reversible <;> simp [extractReaction, h, hr]

theorem extractReaction_type2 (g : Solution) (r1 : Reaction)
    (h : r1.reaction_type = 2) :
    extractReaction g r1 = some (.record
      { isReversible := r1.reversible
        isThirdbody := true
        RA := r1.rate.pre_exponential_factor
        RB := r1.rate.temperature_exponent
        RE := r1.rate.activation_energy / ruc
        ITHB := (r1.efficiencies.length : Int)
        NKTB := r1.efficiencies.map (fun p => g.species_index p.1)
        AIK := r1.efficiencies.map Prod.snd }) := by
  cases hr : r1.reversible <;>
    simp [extractReaction, h, hr, List.map_map, Function.comp]

theorem extractReaction_type4_fields (g : Solution) (r1 : Reaction)
    (reac : ReactionInfo) (h : r1.reaction_type = 4)
    (hr : extractReaction g r1 = some (.record reac)) :
    reac.isChemical = false ∧ reac.isPLOG = false ∧ reac.isFalloff = true ∧
    reac.ITHB = (r1.efficiencies.length : Int) ∧
    reac.NKTB = r1.efficiencies.map (fun p => g.species_index p.1) ∧
    reac.AIK = r1.efficiencies.map Prod.snd := by
  simp only [extractReaction, h] at hr
  norm_num at hr
  split at hr
  · split at hr
    · split at hr <;>
        · simp only [Option.some.injEq, ExtractResult.record.injEq] at hr
          subst hr
          simp [apply_ite, List.map_map, Function.comp]
    · exact absurd hr (by simp)
  · simp only [Option.some.injEq, ExtractResult.record.injEq] at hr
    subst hr
    simp [apply_ite, List.map_map, Function.comp]

theorem extractReaction_record_inv (g : Solution) (r1 : Reaction)
    (reac : ReactionInfo)
    (hr : extractReaction g r1 = some (.record reac)) :
    reac.isChemical = false ∧ reac.isPLOG = false ∧
    ((reac.ITHB = -1 ∧ reac.NKTB = [] ∧ reac.AIK = []) ∨
      (reac.ITHB = (r1.efficiencies.length : Int) ∧
       reac.NKTB = r1.efficiencies.map (fun p => g.species_index p.1) ∧
       reac.AIK = r1.efficiencies.map Prod.snd)) ∧
    ((r1.reaction_type = 2 ∨ r1.reaction_type = 4) →
      (reac.ITHB = (r1.efficiencies.length : Int) ∧
       reac.NKTB = r1.efficiencies.map (fun p => g.species_index p.1) ∧
       reac.AIK = r1.efficiencies.map Prod.snd)) := by
  by_cases h1 : r1.reaction_type = 1
  · rw [extractReaction_type1 g r1 h1] at hr
    simp only [Option.some.injEq, ExtractResult.record.injEq] at hr
    subst hr
    refine ⟨rfl, rfl, Or.inl ⟨rfl, rfl, rfl⟩, ?_⟩
    rintro (h | h) <;> rw [h1] at h <;> exact absurd h (by decide)
  by_cases h2 : r1.reaction_type = 2
  · rw [extractReaction_type2 g r1 h2] at hr
    simp only [Option.some.injEq, ExtractResult.record.injEq] at hr
    subst hr
    exact ⟨rfl, rfl, Or.inr ⟨rfl, rfl, rfl⟩, fun _ => ⟨rfl, rfl, rfl⟩⟩
  by_cases h4 : r1.reaction_type = 4
  · obtain ⟨hc, hp, _, hI, hN, hA⟩ := extractReaction_type4_fields g r1 reac h4 hr
    exact ⟨hc, hp, Or.inr ⟨hI, hN, hA⟩, fun _ => ⟨hI, hN, hA⟩⟩
  · rw [extractReaction_unknown g r1 h1 h2 h4] at hr
    exact absurd hr (by simp)

/-- C3: for every model and reaction index whose reaction-type code is
outside {1, 2, 4}, `get_reaction_info` prints a diagnostic and returns the
bare integer 0 (the `sentinel 0` result, a `some`, so no exception is
raised); a caller must guard against the sentinel explicitly, since it is
not a record. -/
theorem c3_unsupported_returns_sentinel (g : Solution) (i : Nat)
    (r1 : Reaction) (h : g.reactions[i]? = some r1)
    (h1 : r1.reaction_type ≠ 1) (h2 : r1.reaction_type ≠ 2)
    (h4 : r1.reaction_type ≠ 4) :
    get_reaction_info g i = some (.sentinel 0) :=
  (get_reaction_info_eq_extract g i r1 h).trans
    (extractReaction_unknown g r1 h1 h2 h4)

theorem c3_witness :
    get_reaction_info gW 5 = some (.sentinel 0) :=
  c3_unsupported_returns_sentinel gW 5 rxUnknown rfl
    (by decide) (by decide) (by decide)

/-- C5: every record `get_reaction_info` returns satisfies
`len(NKTB) == len(AIK) == ITHB` whenever `ITHB >= 0`, and for type-2 and
type-4 reactions each `(NKTB[n], AIK[n])` pair is the resolved species index
and efficiency multiplier of the n-th entry of the efficiency mapping in its
iteration order (the two parallel lists are the mapwise image of the ordered
mapping). -/
theorem c5_thirdbody_pairing (g : Solution) (i : Nat) (r1 : Reaction)
    (reac : ReactionInfo) (h : g.reactions[i]? = some r1)
    (hr : get_reaction_info g i = some (.record reac)) :
    (0 ≤ reac.ITHB →
      (reac.NKTB.length : Int) = reac.ITHB ∧
      (reac.AIK.length : Int) = reac.ITHB) ∧
    ((r1.reaction_type = 2 ∨ r1.reaction_type = 4) →
      reac.NKTB = r1.efficiencies.map (fun p => g.species_index p.1) ∧
      reac.AIK = r1.efficiencies.map Prod.snd ∧
      reac.ITHB = (r1.efficiencies.length : Int)) := by
  rw [get_reaction_info_eq_extract g i r1 h] at hr
  have hinv := extractReaction_record_inv g r1 reac hr
  refine ⟨fun hpos => ?_, fun ht => ?_⟩
  · rcases hinv.2.2.1 with ⟨hI, hN, hA⟩ | ⟨hI, hN, hA⟩
    · rw [hI] at hpos; exact absurd hpos (by decide)
    · rw [hI, hN, hA]; simp
  · obtain ⟨hI, hN, hA⟩ := hinv.2.2.2 ht
    exact ⟨hN, hA, hI⟩

theorem c5_witness :
    reacT.NKTB = rxThird.efficiencies.map (fun p => gW.species_index p.1) ∧
    (reacT.NKTB.length : Int) = reacT.ITHB ∧
    (reacT.AIK.length : Int) = reacT.ITHB ∧
    reacT.AIK = rxThird.efficiencies.map Prod.snd := by
  have h := c5_thirdbody_pairing gW 1 rxThird reacT rfl rfl
  exact ⟨(h.2 (Or.inl rfl)).1, (h.1 (by decide)).1, (h.1 (by decide)).2,
    (h.2 (Or.inl rfl)).2.1⟩

/-- C6: for every reaction of type code 1, the returned record has
`isSimple` true, the other primary-type flags false, and `RE` equal to the
raw activation energy divided by 8314.4621 exactly. -/
theorem c6_simple_flags_energy (g : Solution) (i : Nat) (r1 : Reaction)
    (reac : ReactionInfo) (h : g.reactions[i]? = some r1)
    (ht : r1.reaction_type = 1)
    (hr : get_reaction_info g i = some (.record reac)) :
    reac.isSimple = true ∧ reac.isThirdbody = false ∧
    reac.isFalloff = false ∧ reac.isPLOG = false ∧
    reac.RE = r1.rate.activation_energy / ruc := by
  rw [get_reaction_info_eq_extract g i r1 h, extractReaction_type1 g r1 ht] at hr
  simp only [Option.some.injEq, ExtractResult.record.injEq] at hr
  subst hr
  exact ⟨rfl, rfl, rfl, rfl, rfl⟩

theorem c6_witness :
    reacS.isSimple = true ∧ reacS.isThirdbody = false ∧
    reacS.isFalloff = false ∧ reacS.isPLOG = false ∧
    reacS.RE = rxSimple.rate.activation_energy / ruc :=
  c6_simple_flags_energy gW 0 rxSimple reacS rfl rfl rfl

/-- C10: every record `get_reaction_info` returns, for every input, has
`isChemical` false and `isPLOG` false: no code path of the extractor sets
either declared flag. -/
theorem c10_chemical_plog_never_set (g : Solution) (i : Nat)
    (reac : ReactionInfo)
    (hr : get_reaction_info g i = some (.record reac)) :
    reac.isChemical = false ∧ reac.isPLOG = false := by
  rcases hl : g.reactions[i]? with _ | r1
  · rw [get_reaction_info, hl] at hr
    exact absurd hr (by simp)
  · rw [get_reaction_info_eq_extract g i r1 hl] at hr
    have h := extractReaction_record_inv g r1 reac hr
    exact ⟨h.1, h.2.1⟩

theorem c10_witness :
    reacT.isChemical = false ∧ reacT.isPLOG = false :=
  c10_chemical_plog_never_set gW 1 reacT rfl

/-- C1: in the written report, the printed pre-exponential factor is
`RA * ConvertA * 1000` on a type-2 reaction's forward-rate line,
`RA * ConvertA` (no extra 1000) on a type-4 reaction's high-pressure
forward-rate line, and `Fall[0] * ConvertA * 1000` on every low-pressure
limit line a type-4 block emits (one per fall-off sub-type flag). -/
theorem c1_printed_preexponential (g : Solution) (i : Nat) (r1 : Reaction)
    (reac : ReactionInfo) (h : g.reactions[i]? = some r1)
    (hr : get_reaction_info g i = some (.record reac)) :
    (r1.reaction_type = 2 →
      rfAs (reportStep g i).writes = [reac.RA * Convert_A g i * 1000]) ∧
    (r1.reaction_type = 4 →
      rfAs (reportStep g i).writes = [reac.RA * Convert_A g i] ∧
      lowAs (reportStep g i).writes =
        (if reac.isLindemann then [reac.Fall.getD 0 0 * Convert_A g i * 1000] else []) ++
        (if reac.isTroe6 then [reac.Fall.getD 0 0 * Convert_A g i * 1000] else []) ++
        (if reac.isTroe7 then [reac.Fall.getD 0 0 * Convert_A g i * 1000] else [])) := by
  have hs : reportStep g i = reportBlock g i r1 (.record reac) := by
    simp [reportStep, h, hr]
  rw [hs]
  constructor
  · intro ht
    simp [reportBlock, ht, rfAs, StepResult.writes, List.filterMap_append,
      List.filterMap_map, List.filterMap_eq_nil_iff, Function.comp_def,
      mul_comm, mul_assoc, mul_left_comm]
  · intro ht
    cases hL : reac.isLindemann <;> cases h6 : reac.isTroe6 <;>
      cases h7 : reac.isTroe7 <;>
      constructor <;>
      simp [reportBlock, ht, hL, h6, h7, rfAs, lowAs, StepResult.writes,
        List.filterMap_append, List.filterMap_map, List.filterMap_eq_nil_iff,
        Function.comp_def, mul_comm, mul_assoc, mul_left_comm]

theorem c1_witness :
    rfAs (StepResult.writes (reportStep gW 1)) = [reacT.RA * Convert_A gW 1 * 1000] ∧
    rfAs (StepResult.writes (reportStep gW 2)) = [reacL.RA * Convert_A gW 2] ∧
    lowAs (StepResult.writes (reportStep gW 2)) =
      (if reacL.isLindemann then [reacL.Fall.getD 0 0 * Convert_A gW 2 * 1000] else []) ++
      (if reacL.isTroe6 then [reacL.Fall.getD 0 0 * Convert_A gW 2 * 1000] else []) ++
      (if reacL.isTroe7 then [reacL.Fall.getD 0 0 * Convert_A gW 2 * 1000] else []) :=
  ⟨(c1_printed_preexponential gW 1 rxThird reacT rfl rfl).1 rfl,
   ((c1_printed_preexponential gW 2 rxFallLind reacL rfl rfl).2 rfl).1,
   ((c1_printed_preexponential gW 2 rxFallLind reacL rfl rfl).2 rfl).2⟩

/-- C2: under the external guarantee that reactant stoichiometric
coefficients are nonnegative, the reaction order the Reporter computes (the
sum of the nonzero entries of the reaction's reactant coefficient column)
equals the sum of the strictly-positive entries with zero entries excluded,
and whenever `order - 1` is the integer `k` (the stoichiometric coefficients
of the supported mechanisms are whole numbers) the conversion factor is
`ConvertA = 1000 ^ (order - 1)`. -/
theorem c2_order_and_convert (g : Solution) (i : Nat) (k : ℤ)
    (hnn : ∀ c ∈ g.reactant_stoich_coeffs.getD i [], 0 ≤ c)
    (hk : reac_order g i - 1 = (k : ℚ)) :
    reac_order g i =
      ((g.reactant_stoich_coeffs.getD i []).filter (fun c => decide (0 < c))).sum ∧
    Convert_A g i = 1000 ^ k := by
  constructor
  · have hf : (g.reactant_stoich_coeffs.getD i []).filter (fun c => c != 0) =
        (g.reactant_stoich_coeffs.getD i []).filter (fun c => decide (0 < c)) := by
      apply List.filter_congr
      intro c hc
      have h0 := hnn c hc
      by_cases hz : c = 0
      · simp [hz]
      · simp [hz, lt_of_le_of_ne h0 (Ne.symm hz)]
    simp only [reac_order]
    rw [hf]
  · unfold Convert_A
    rw [hk, Rat.num_intCast]

theorem c2_witness :
    reac_order gW 1 =
      ((gW.reactant_stoich_coeffs.getD 1 []).filter (fun c => decide (0 < c))).sum ∧
    Convert_A gW 1 = 1000 ^ (1 : ℤ) :=
  c2_order_and_convert gW 1 1
    (by intro c hc; simp [gW] at hc; rcases hc with h | h <;> subst h <;> norm_num)
    (by simp [reac_order, gW]; norm_num)

/-- C4 (code bug, visible at T2 = 0): the extractor appends all four Troe
shape parameters unconditionally, so for a fall-off 6-parameter Troe
reaction (T2 == 0, flagged `isTroe6`) the returned `Fall` has length 7 with
the zero T2 as its last entry — although the module's own header comment
states that T2 is stored only for the 7-parameter Troe form, which is what
the claim asserts (lengths 0 for non-fall-off and 3 for Lindemann do hold as
claimed). -/
theorem c4_troe6_fall_has_seven_entries :
    get_reaction_info gW 3 = some (.record reacT6) ∧
    reacT6.isTroe6 = true ∧ reacT6.isTroe7 = false ∧
    reacT6.Fall.length = 7 :=
  ⟨rfl, rfl, rfl, rfl⟩

/-- C7: when the loop of the Reporter reaches a reaction whose raw type code
is not one of 1, 2, 4, 5, it prints the condition for the operator and
executes `sys.exit()`: the run ends at once as `exited` no matter how many
reaction indices remain, the only write of the offending block being its
header line, and `file.close()` never executes. -/
theorem c7_unknown_type_hard_stop (g : Solution) (i : Nat)
    (rest : List Nat) (acc : List ReportLine) (r1 : Reaction)
    (h : g.reactions[i]? = some r1)
    (h1 : r1.reaction_type ≠ 1) (h2 : r1.reaction_type ≠ 2)
    (h4 : r1.reaction_type ≠ 4) (h5 : r1.reaction_type ≠ 5) :
    runReactions g (i :: rest) acc =
      .exited (acc ++ [ReportLine.header (i + 1) r1.equation r1.reaction_type])
        false := by
  have hx : get_reaction_info g i = some (.sentinel 0) :=
    (get_reaction_info_eq_extract g i r1 h).trans
      (extractReaction_unknown g r1 h1 h2 h4)
  have hs : reportStep g i =
      .exit [ReportLine.header (i + 1) r1.equation r1.reaction_type] := by
    simp [reportStep, h, hx, reportBlock, h1, h2, h4, h5]
  simp [runReactions, hs]

theorem c7_witness :
    runReactions gW [5] [] =
      .exited ([] ++ [ReportLine.header (5 + 1) rxUnknown.equation
        rxUnknown.reaction_type]) false :=
  c7_unknown_type_hard_stop gW 5 [] [] rxUnknown rfl (by decide) (by decide)
    (by decide) (by decide)

theorem runReactions_fileClosed (g : Solution) (l : List Nat)
    (acc : List ReportLine) :
    (runReactions g l acc).fileClosed = (runReactions g l acc).isCompleted := by
  induction l generalizing acc with
  | nil => rfl
  | cons i rest ih =>
    rcases hstep : reportStep g i with ls | ls | ls
    · have hr : runReactions g (i :: rest) acc = runReactions g rest (acc ++ ls) := by
        simp [runReactions, hstep]
      rw [hr]
      exact ih _
    · simp [runReactions, hstep, Outcome.fileClosed, Outcome.isCompleted]
    · simp [runReactions, hstep, Outcome.fileClosed, Outcome.isCompleted]

/-- C8 counterexample: on a model whose first reaction carries the
unrecognized type code 99, the Reporter run halts through `sys.exit()` with
the file-close call never executed, so the claim that the handle is closed
when the run halts mid-pass on the unsupported-type failure path is false. -/
theorem c8_hard_stop_leaves_file_open :
    writeReport gBad =
      .exited ([] ++ [ReportLine.header 1 rxUnknown.equation
        rxUnknown.reaction_type]) false ∧
    (writeReport gBad).fileClosed = false :=
  ⟨rfl, rfl⟩

/-- C8 (amended): the Reporter opens the output fresh exactly once at the
start of its pass (the accumulated output starts empty), and the program
executes its `file.close()` exactly when the pass over the reactions runs to
normal completion — on the unsupported-type hard stop, as on any crash, it
terminates without executing the close. -/
theorem c8_close_iff_completed (g : Solution) :
    (writeReport g).fileClosed = (writeReport g).isCompleted :=
  runReactions_fileClosed g (List.range g.reactions.length) []

/-- C9: the type-5 (PLOG) reporting branch reads `NPLG`, `P_plog`, `A_plog`,
`B_plog`, `E_plog` from the extracted value, but a type-5 code falls into
the extractor's unsupported branch (a `sentinel 0`, never a record — and
`ReactionInfo` declares no such fields on any record either), so the branch
fails after writing its `C PLOG` line: the PLOG path cannot execute
successfully. -/
theorem c9_plog_unreachable (g : Solution) (i : Nat) (r1 : Reaction)
    (h : g.reactions[i]? = some r1) (h5 : r1.reaction_type = 5) :
    get_reaction_info g i = some (.sentinel 0) ∧
    reportStep g i =
      .error [ReportLine.header (i + 1) r1.equation r1.reaction_type,
              .note "C PLOG"] := by
  have hx : get_reaction_info g i = some (.sentinel 0) :=
    (get_reaction_info_eq_extract g i r1 h).trans
      (extractReaction_unknown g r1 (by rw [h5]; decide) (by rw [h5]; decide)
        (by rw [h5]; decide))
  refine ⟨hx, ?_⟩
  simp [reportStep, h, hx, reportBlock, h5]

theorem c9_witness :
    get_reaction_info gW 4 = some (.sentinel 0) ∧
    reportStep gW 4 =
      .error [ReportLine.header (4 + 1) rxPlog.equation rxPlog.reaction_type,
              .note "C PLOG"] :=
  c9_plog_unreachable gW 4 rxPlog rfl rfl

end Spec2Proof
